import Mathlib

/-!
Verification of the core of `prometheus_fileage_exporter`
(package `exporter`, file `exporter.go`).

Go `time.Time` values are modelled as natural numbers (seconds since some
epoch): the Go zero value (`IsZero`, the Absent sentinel for a missing or
unstatable file) is `0`, and `a.After(b)` is `a > b`.  All file mtimes and
the process startup time are strictly positive in reality, so this is
faithful on the reachable domain.  Durations (`time.Duration`, `end.Sub`,
`time.Since`) are modelled as integers.
-/

namespace FileageExporter

/-- The mutable, lock-guarded record of `Exporter` (fields `start`, `end`,
`oldEnd` of `exporter.go`).  The Go field `end` is a Lean keyword, hence
`endT`. -/
structure RunState where
  start : Nat
  endT : Nat
  oldEnd : Nat
  deriving Repr, DecidableEq

/-- The observable effect of one `update()` call: the new field values, how
much `promUpdateCount.Inc()` was called (0 or 1), what
`promUpdateRunning.Set` was called with (`none` when it was not called),
and the value passed to `promUpdateDuration.Observe` (`none` when no
observation was recorded). -/
structure UpdateEffects where
  state : RunState
  countInc : Nat
  runningSet : Option Nat
  durationObs : Option Int
  deriving Repr, DecidableEq

/-- `measure(filename)` of `exporter.go`: empty filename or a failing stat
yields the zero time; otherwise the mtime.  The filesystem is a partial map
from paths to mtimes. -/
def measure (fs : String → Option Nat) (filename : String) : Nat :=
  if filename = "" then 0
  else match fs filename with
    | none => 0
    | some mtime => mtime

/-- `(x *Exporter) update()` of `exporter.go`, lines 174-208, as a function
of the freshly measured `start` and `end`, the exporter startup time and
the prior state.  Mirrors the Go control flow: unconditional snapshot of
`start`/`end`; running-flag derivation when `start` is non-zero; completion
detection when `end` is non-zero and differs from `oldEnd`, with the early
`return` on `start.After(end) || startup.After(end)`.

The running-flag block (lines 182-192) is factored into `runningSetOf`:
when `start` is non-zero, `promUpdateRunning` is set to 1 when
`end.IsZero() || start.After(end)` and to 0 otherwise; when `start` is
zero the block is skipped and the gauge is not touched. -/
def runningSetOf (start endT : Nat) : Option Nat :=
  if start ≠ 0 then
    if endT = 0 ∨ start > endT then some 1 else some 0
  else none

def update (startup : Nat) (s : RunState) (start endT : Nat) : UpdateEffects :=
  if endT ≠ 0 ∧ endT ≠ s.oldEnd then
    if start > endT ∨ startup > endT then
      { state := { start := start, endT := endT, oldEnd := endT },
        countInc := 0, runningSet := runningSetOf start endT, durationObs := none }
    else
      { state := { start := start, endT := endT, oldEnd := endT },
        countInc := 1, runningSet := runningSetOf start endT,
        durationObs := if start ≠ 0 then some ((endT : Int) - (start : Int)) else none }
  else
    { state := { start := start, endT := endT, oldEnd := s.oldEnd },
      countInc := 0, runningSet := runningSetOf start endT, durationObs := none }

/-- A whole sequence of `update()` calls, threading the state and summing
the counter increments: models the `promUpdateCount` value after feeding a
list of measured `(start, end)` pairs. -/
def runUpdates (startup : Nat) : RunState → Nat → List (Nat × Nat) → RunState × Nat
  | s, count, [] => (s, count)
  | s, count, (st, e) :: rest =>
      let r := update startup s st e
      runUpdates startup r.state (count + r.countInc) rest

/-- The health/liveness boolean of `writeStatusResponse` (lines 236-240):
`good := time.Since(myEnd) < timeout`, overridden to `true` when
`welpenschutz > 0 && time.Since(x.startup) < welpenschutz`. -/
def statusGood (now endT startup timeout welpenschutz : Int) : Bool :=
  let updateAge := now - endT
  let good := decide (updateAge < timeout)
  if 0 < welpenschutz ∧ now - startup < welpenschutz then true else good

/-- What Go prints for `time.Time{}` under the `%s` verb: the default
`time.Time.String()` rendering of the zero value (NOT RFC3339Nano). -/
def goZeroTimeString : String := "0001-01-01 00:00:00 +0000 UTC"

/-- The zero `time.Time` rendered with the `time.RFC3339Nano` layout, as
the specification claims the "never" sentinel is printed. -/
def rfc3339NanoZeroTime : String := "0001-01-01T00:00:00Z"

/-- Go `%t` formatting of a boolean. -/
def formatBool (b : Bool) : String := if b then "true" else "false"

/-- The `body` template of `writeStatusResponse` (lines 242-244)
instantiated by `fmt.Fprintf(w, body, endF, time.Time{}, good)`:
`endF` is the RFC3339Nano rendering of the snapshot `end` time. -/
def statusBodyFmt (endF : String) (good : Bool) : String :=
  "last_update: " ++ endF ++ "\r\n" ++
  "# time " ++ goZeroTimeString ++ " means never.\r\n" ++
  "# alive/healthy: " ++ formatBool good ++ "\r\n"

/-- The body as the specification words it: identical template but with
the "never" sentinel claimed to be in RFC3339Nano. -/
def specStatusBody (endF : String) (good : Bool) : String :=
  "last_update: " ++ endF ++ "\r\n" ++
  "# time " ++ rfc3339NanoZeroTime ++ " means never.\r\n" ++
  "# alive/healthy: " ++ formatBool good ++ "\r\n"

/-- An HTTP response: status code and body as written to the wire. -/
structure StatusResponse where
  status : Nat
  body : String
  deriving Repr, DecidableEq

/-- Go stdlib `http.Error(w, error, code)`: replies with the given status
code and writes the message followed by a newline (`fmt.Fprintln`). -/
def httpError (msg : String) (code : Nat) : StatusResponse :=
  { status := code, body := msg ++ "\n" }

/-- `(x *Exporter) writeStatusResponse` (lines 231-253) as a function of
the snapshot `end` time, the current wall clock, the startup time, the two
duration parameters and the RFC3339Nano formatter `fmtRFC` (kept abstract:
the Go code formats `myEnd` with layout `time.RFC3339Nano`). -/
def writeStatusResponse (fmtRFC : Int → String)
    (now endT startup timeout welpenschutz : Int) : StatusResponse :=
  let good := statusGood now endT startup timeout welpenschutz
  let endF := fmtRFC endT
  if good then { status := 200, body := statusBodyFmt endF good }
  else httpError (statusBodyFmt endF good) 503

/-- `healthHandler` (lines 223-225): evaluates with the health timeout and
the configured grace duration (`Welpenschutz`). -/
def healthHandler (fmtRFC : Int → String)
    (now endT startup healthTimeout welpenschutz : Int) : StatusResponse :=
  writeStatusResponse fmtRFC now endT startup healthTimeout welpenschutz

/-- `livenessHandler` (lines 227-229): evaluates with the liveness timeout
and a grace duration of `0`. -/
def livenessHandler (fmtRFC : Int → String)
    (now endT startup livenessTimeout : Int) : StatusResponse :=
  writeStatusResponse fmtRFC now endT startup livenessTimeout 0

/-- The age-gauge effect of `(x *Exporter) PromHandler` (lines 211-221)
just before serving the scrape: `some a` when `promUpdateAge.Set(a)` is
called, `none` when the gauge is left untouched.  The Go code guards the
`Set` with `!myEnd.IsZero()`. -/
def promHandlerAgeSet (now endT : Int) : Option Int :=
  if endT ≠ 0 then some (now - endT) else none

/-- The age-gauge effect as the specification claims it: always recomputed
as now minus end, reported against the zero timestamp when end is Absent. -/
def specPromHandlerAgeSet (now endT : Int) : Option Int :=
  some (now - endT)

/-- Outcome of `createWatcher` (lines 108-135): `attached k` when the
`w.Add(dir)` attempt number `k` (0-based) succeeded and the watcher is
returned; `fatal k t` when `log.Fatalf` terminates the process at absolute
time `t` after attempt `k` failed and the deadline timer fired; `silent`
for the empty filename, where a zero-value watcher whose channels never
deliver is returned. -/
inductive WatchOutcome where
  | attached (k : Nat)
  | fatal (k : Nat) (t : Nat)
  | silent
  deriving Repr, DecidableEq

/-- Whether the returned event source can ever produce an event: the
zero-value `fsnotify.Watcher{}` has nil channels and blocks forever. -/
def producesEvents : WatchOutcome → Bool
  | .silent => false
  | _ => true

/-- The retry loop of `createWatcher`: `for backoff := time.Second; ;
backoff *= 2`, so attempt `k` is followed (on failure) by a wait of `2^k`
seconds; the select between `time.After(backoff)` and the absolute
`deadline` timer retries when the backoff expires strictly before the
deadline and otherwise terminates fatally, at a time no earlier than the
deadline.  `succeeds k` tells whether the k-th `w.Add(dir)` call returns
nil. -/
def retryAdd (succeeds : Nat → Bool) (deadline : Nat) (now : Nat) (k : Nat) :
    WatchOutcome :=
  if succeeds k then .attached k
  else if h : now + 2 ^ k < deadline then
    retryAdd succeeds deadline (now + 2 ^ k) (k + 1)
  else .fatal k (max now deadline)
termination_by deadline - now
decreasing_by
  have hpow : 0 < 2 ^ k := Nat.pos_pow_of_pos k (by omega)
  omega

/-- `(x *Exporter) createWatcher(filename)`: empty filename yields the
forever-blocking watcher; otherwise the retry loop runs against the
deadline `startup + DirectoryTimeout`, starting at wall-clock time `now`. -/
def createWatcher (succeeds : Nat → Bool) (startup dirTimeout now : Nat)
    (filename : String) : WatchOutcome :=
  if filename = "" then .silent
  else retryAdd succeeds (startup + dirTimeout) now 0

/-! ### Normal forms of the update effects -/

lemma update_runningSet (startup : Nat) (s : RunState) (st e : Nat) :
    (update startup s st e).runningSet = runningSetOf st e := by
  unfold update
  split
  · split <;> rfl
  · rfl

lemma update_state_start (startup : Nat) (s : RunState) (st e : Nat) :
    (update startup s st e).state.start = st := by
  unfold update
  split
  · split <;> rfl
  · rfl

lemma update_state_endT (startup : Nat) (s : RunState) (st e : Nat) :
    (update startup s st e).state.endT = e := by
  unfold update
  split
  · split <;> rfl
  · rfl

lemma update_state_oldEnd (startup : Nat) (s : RunState) (st e : Nat) :
    (update startup s st e).state.oldEnd =
      if e ≠ 0 ∧ e ≠ s.oldEnd then e else s.oldEnd := by
  unfold update
  split
  case isTrue h => split <;> simp [h]
  case isFalse h => simp [h]

lemma update_countInc (startup : Nat) (s : RunState) (st e : Nat) :
    (update startup s st e).countInc =
      if (e ≠ 0 ∧ e ≠ s.oldEnd) ∧ ¬(st > e ∨ startup > e) then 1 else 0 := by
  unfold update
  split
  case isTrue h1 =>
    split
    case isTrue h2 => simp [h1, h2]
    case isFalse h2 => simp [h1, h2]
  case isFalse h1 => simp [h1]

lemma update_durationObs (startup : Nat) (s : RunState) (st e : Nat) :
    (update startup s st e).durationObs =
      if (e ≠ 0 ∧ e ≠ s.oldEnd) ∧ ¬(st > e ∨ startup > e) ∧ st ≠ 0 then
        some ((e : Int) - (st : Int))
      else none := by
  unfold update
  split
  case isTrue h1 =>
    split
    case isTrue h2 => simp [h1, h2]
    case isFalse h2 =>
      by_cases h3 : st ≠ 0 <;> simp [h1, h2, h3]
  case isFalse h1 => simp [h1]

lemma runUpdates_count_mono (startup : Nat) :
    ∀ (obs : List (Nat × Nat)) (s : RunState) (count : Nat),
      count ≤ (runUpdates startup s count obs).2 := by
  intro obs
  induction obs with
  | nil => intro s count; simp [runUpdates]
  | cons p rest ih =>
      intro s count
      obtain ⟨st, e⟩ := p
      have h := ih (update startup s st e).state (count + (update startup s st e).countInc)
      calc count ≤ count + (update startup s st e).countInc := Nat.le_add_right _ _
        _ ≤ _ := h

/-! ### Claims about the Run-State Tracker -/

/-- C1: `updateCount` increases by exactly 1 iff `end` is non-absent,
differs from `previousEnd`, `start` is not after `end` and the startup
time is not after `end`; in every other case it is unchanged, and it is
never decremented (the per-call delta is 0 or 1, so the running total over
any sequence of calls is non-decreasing).  When it increases and `start`
is non-absent, exactly one duration observation equal to `end - start` is
recorded; no observation is recorded in any other case. -/
theorem claim_C1 (startup : Nat) (s : RunState) (st e : Nat) :
    ((update startup s st e).countInc = 1 ↔
      (e ≠ 0 ∧ e ≠ s.oldEnd ∧ ¬ st > e ∧ ¬ startup > e)) ∧
    ((update startup s st e).countInc = 0 ∨ (update startup s st e).countInc = 1) ∧
    ((update startup s st e).durationObs = some ((e : Int) - (st : Int)) ↔
      ((update startup s st e).countInc = 1 ∧ st ≠ 0)) ∧
    (¬((update startup s st e).countInc = 1 ∧ st ≠ 0) →
      (update startup s st e).durationObs = none) ∧
    (∀ (obs : List (Nat × Nat)) (count : Nat),
      count ≤ (runUpdates startup s count obs).2) := by
  rw [update_countInc, update_durationObs]
  refine ⟨?_, ?_, ?_, ?_, fun obs count => runUpdates_count_mono startup obs s count⟩
  · by_cases hC : (e ≠ 0 ∧ e ≠ s.oldEnd) ∧ ¬(st > e ∨ startup > e) <;>
      (simp [hC]; try omega)
  · by_cases hC : (e ≠ 0 ∧ e ≠ s.oldEnd) ∧ ¬(st > e ∨ startup > e) <;>
      (simp [hC]; try omega)
  · by_cases hC : (e ≠ 0 ∧ e ≠ s.oldEnd) ∧ ¬(st > e ∨ startup > e) <;>
      by_cases hst : st = 0 <;> simp [hC, hst]
  · by_cases hC : (e ≠ 0 ∧ e ≠ s.oldEnd) ∧ ¬(st > e ∨ startup > e) <;>
      by_cases hst : st = 0 <;> simp [hC, hst]

theorem claim_C1_witness :
    (update 1 ⟨0, 0, 0⟩ 2 5).countInc = 1 ∧
    (update 1 ⟨0, 0, 0⟩ 2 5).durationObs = some 3 := by
  have h := claim_C1 1 ⟨0, 0, 0⟩ 2 5
  have hc : (update 1 ⟨0, 0, 0⟩ 2 5).countInc = 1 := h.1.mpr (by decide)
  have hd := h.2.2.1.mpr ⟨hc, by decide⟩
  exact ⟨hc, hd.trans (by decide)⟩

/-- C2: feeding the same non-absent `end` value through two consecutive
`update()` calls leaves `updateCount` unchanged on the second call and
records no duration observation (idempotent debounce), for any start
values. -/
theorem claim_C2 (startup : Nat) (s : RunState) (st1 st2 e : Nat) (he : e ≠ 0) :
    (update startup (update startup s st1 e).state st2 e).countInc = 0 ∧
    (update startup (update startup s st1 e).state st2 e).durationObs = none := by
  have hold : (update startup s st1 e).state.oldEnd = e := by
    rw [update_state_oldEnd]
    by_cases h : e = s.oldEnd
    · simp [h]
    · simp [he, h]
  constructor
  · rw [update_countInc, hold]; simp
  · rw [update_durationObs, hold]; simp

theorem claim_C2_witness :
    (update 1 (update 1 ⟨0, 0, 0⟩ 2 5).state 3 5).countInc = 0 ∧
    (update 1 (update 1 ⟨0, 0, 0⟩ 2 5).state 3 5).durationObs = none :=
  claim_C2 1 ⟨0, 0, 0⟩ 2 3 5 (by decide)

/-- C3: whenever the measured `start` is non-absent, the running gauge is
set to 1 iff `end` is Absent or `start` is after `end`, and set to 0
otherwise; and the gauge is only ever derived (set at all) when `start`
is non-absent. -/
theorem claim_C3 (startup : Nat) (s : RunState) (st e : Nat) :
    (st ≠ 0 →
      (((update startup s st e).runningSet = some 1 ↔ (e = 0 ∨ st > e)) ∧
       ((update startup s st e).runningSet = some 0 ↔ ¬(e = 0 ∨ st > e)))) ∧
    ((update startup s st e).runningSet ≠ none → st ≠ 0) := by
  rw [update_runningSet]
  unfold runningSetOf
  constructor
  · intro h
    by_cases hc : e = 0 ∨ st > e <;> simp [h, hc]
  · intro h
    by_cases hst : st = 0
    · simp [hst] at h
    · exact hst

theorem claim_C3_witness :
    (update 1 ⟨0, 0, 0⟩ 5 3).runningSet = some 1 :=
  (((claim_C3 1 ⟨0, 0, 0⟩ 5 3).1 (by decide)).1).mpr (by decide)

/-- C4 counterexample: a call with non-absent `start = 5` and Absent
`end = 0` does set the running gauge (to 1), refuting the claim that the
gauge is never set when `end` is Absent. -/
theorem claim_C4_counterexample :
    (update 1 { start := 0, endT := 0, oldEnd := 0 } 5 0).runningSet = some 1 := by
  decide

/-- C4 (amended): for every call to `update()` where the measured `end`
is Absent, the running gauge is never set to 0; it is set, namely to 1,
exactly when the measured `start` is non-absent, and left unset when
`start` is also Absent. -/
theorem claim_C4 (startup : Nat) (s : RunState) (st : Nat) :
    (update startup s st 0).runningSet ≠ some 0 ∧
    ((update startup s st 0).runningSet = some 1 ↔ st ≠ 0) := by
  rw [update_runningSet]
  unfold runningSetOf
  by_cases h : st = 0 <;> simp [h]

/-- C6: every `update()` call overwrites the tracked `start` and `end`
fields unconditionally with the measured values, and updates
`previousEnd` (field `oldEnd`) only when the measured `end` is non-absent
and differs from the current value; otherwise `previousEnd` is
unchanged. -/
theorem claim_C6 (startup : Nat) (s : RunState) (st e : Nat) :
    (update startup s st e).state.start = st ∧
    (update startup s st e).state.endT = e ∧
    ((e ≠ 0 ∧ e ≠ s.oldEnd) → (update startup s st e).state.oldEnd = e) ∧
    (¬(e ≠ 0 ∧ e ≠ s.oldEnd) → (update startup s st e).state.oldEnd = s.oldEnd) := by
  refine ⟨update_state_start startup s st e, update_state_endT startup s st e, ?_, ?_⟩
  · intro h; rw [update_state_oldEnd]; simp [h]
  · intro h; rw [update_state_oldEnd]; simp [h]

theorem claim_C6_witness :
    (update 1 ⟨1, 2, 3⟩ 7 9).state.oldEnd = 9 ∧
    (update 1 ⟨1, 2, 3⟩ 7 3).state.oldEnd = 3 :=
  ⟨(claim_C6 1 ⟨1, 2, 3⟩ 7 9).2.2.1 (by decide),
   (claim_C6 1 ⟨1, 2, 3⟩ 7 3).2.2.2 (by decide)⟩

/-- C10: when the measured `start` is Absent (which `measure` produces
for an unconfigured empty path or a missing file), the running gauge is
left completely untouched by `update()` — neither set to 0 nor to 1 — so
a previously set value persists. -/
theorem claim_C10 (startup : Nat) (s : RunState) (e : Nat) :
    (update startup s 0 e).runningSet = none ∧
    (∀ fs : String → Option Nat, measure fs "" = 0) ∧
    (∀ filename : String, measure (fun _ => none) filename = 0) := by
  refine ⟨?_, ?_, ?_⟩
  · rw [update_runningSet]; simp [runningSetOf]
  · intro fs; simp [measure]
  · intro filename; unfold measure; split <;> rfl

/-! ### Claims about the Readiness Evaluator and the HTTP surface -/

/-- C5: the status evaluation is ok exactly when `now - end < timeout`,
or when the grace duration is positive and `now - processStartTime` is
within it; the liveness handler evaluates with grace `0`, so its outcome
is `now - end < livenessTimeout` and is independent of the process
startup time (the grace window is ignored entirely). -/
theorem claim_C5 (fmtRFC : Int → String) (now endT startup T : Int) :
    (∀ G : Int, statusGood now endT startup T G = true ↔
      (now - endT < T ∨ (0 < G ∧ now - startup < G))) ∧
    ((livenessHandler fmtRFC now endT startup T).status = 200 ↔ now - endT < T) ∧
    (∀ startup2 : Int, livenessHandler fmtRFC now endT startup T =
      livenessHandler fmtRFC now endT startup2 T) := by
  refine ⟨?_, ?_, ?_⟩
  · intro G
    by_cases hg : 0 < G ∧ now - startup < G <;> simp [statusGood, hg]
  · by_cases hd : now - endT < T <;>
      simp [livenessHandler, writeStatusResponse, statusGood, httpError, hd]
  · intro startup2
    simp [livenessHandler, writeStatusResponse, statusGood]

/-- C7 counterexample: at a concrete healthy evaluation the rendered body
prints the "never" sentinel in the default Go rendering of the zero
`time.Time` (`%s` calls its `String()` method), not in RFC3339Nano as the
claim states, so the body differs from the claimed format. -/
theorem claim_C7_counterexample :
    (writeStatusResponse (fun _ => "2020-01-01T00:00:00Z") 10 5 0 100 0).body ≠
      specStatusBody "2020-01-01T00:00:00Z" true := by
  decide

/-- C7 (amended): for every evaluation, both outcomes render the same
template reporting the raw end timestamp (in RFC3339Nano) and the
computed boolean; the zero "never" sentinel, however, is printed in Go's
default `time.Time` string format `0001-01-01 00:00:00 +0000 UTC` rather
than RFC3339Nano, and in the not-ok branch (HTTP 503) the error helper
appends one trailing newline to the body. -/
theorem claim_C7 (fmtRFC : Int → String) (now endT startup T G : Int) :
    (statusGood now endT startup T G = true →
      writeStatusResponse fmtRFC now endT startup T G =
        { status := 200,
          body := "last_update: " ++ fmtRFC endT ++ "\r\n" ++
            "# time " ++ "0001-01-01 00:00:00 +0000 UTC" ++ " means never.\r\n" ++
            "# alive/healthy: " ++ "true" ++ "\r\n" }) ∧
    (statusGood now endT startup T G = false →
      writeStatusResponse fmtRFC now endT startup T G =
        { status := 503,
          body := "last_update: " ++ fmtRFC endT ++ "\r\n" ++
            "# time " ++ "0001-01-01 00:00:00 +0000 UTC" ++ " means never.\r\n" ++
            "# alive/healthy: " ++ "false" ++ "\r\n" ++ "\n" }) := by
  constructor <;> intro h <;>
    simp [writeStatusResponse, statusBodyFmt, httpError, goZeroTimeString,
      formatBool, h]

theorem claim_C7_witness :
    writeStatusResponse (fun _ => "E") 10 5 0 100 0 =
      { status := 200,
        body := "last_update: " ++ "E" ++ "\r\n" ++
          "# time " ++ "0001-01-01 00:00:00 +0000 UTC" ++ " means never.\r\n" ++
          "# alive/healthy: " ++ "true" ++ "\r\n" } ∧
    writeStatusResponse (fun _ => "E") 10 5 0 1 0 =
      { status := 503,
        body := "last_update: " ++ "E" ++ "\r\n" ++
          "# time " ++ "0001-01-01 00:00:00 +0000 UTC" ++ " means never.\r\n" ++
          "# alive/healthy: " ++ "false" ++ "\r\n" ++ "\n" } :=
  ⟨(claim_C7 (fun _ => "E") 10 5 0 100 0).1 (by decide),
   (claim_C7 (fun _ => "E") 10 5 0 1 0).2 (by decide)⟩

/-- C8 counterexample: on a scrape where the snapshot `end` is Absent the
age gauge is left untouched by `PromHandler`, not reported against the
zero timestamp as the claim states. -/
theorem claim_C8_counterexample :
    promHandlerAgeSet 100 0 ≠ specPromHandlerAgeSet 100 0 := by
  decide

/-- C8 (amended): on every metrics scrape the age gauge is lazily
recomputed as `now - end` immediately before serialization when `end` is
non-absent; when `end` is Absent the gauge is not set at all (left
untouched and unregistered). -/
theorem claim_C8 (now endT : Int) :
    ((promHandlerAgeSet now endT).isSome ↔ endT ≠ 0) ∧
    (∀ a : Int, promHandlerAgeSet now endT = some a → a = now - endT) := by
  constructor
  · by_cases h : endT = 0 <;> simp [promHandlerAgeSet, h]
  · intro a ha
    unfold promHandlerAgeSet at ha
    by_cases h : endT = 0
    · simp [h] at ha
    · simp [h] at ha
      omega

theorem claim_C8_witness :
    (promHandlerAgeSet 100 7).isSome ∧ (93 : Int) = 100 - 7 :=
  ⟨(claim_C8 100 7).1.mpr (by decide), (claim_C8 100 7).2 93 (by decide)⟩

/-! ### Claims about the Directory Watcher -/

lemma retryAdd_spec (succeeds : Nat → Bool) (deadline : Nat) :
    ∀ (fuel now k : Nat), deadline - now ≤ fuel →
      (∀ j, j < k → succeeds j = false) →
      (∃ m, retryAdd succeeds deadline now k = .attached m ∧ succeeds m = true ∧
        ∀ j, j < m → succeeds j = false) ∨
      (∃ m t, retryAdd succeeds deadline now k = .fatal m t ∧ deadline ≤ t ∧
        ∀ j, j ≤ m → succeeds j = false) := by
  intro fuel
  induction fuel with
  | zero =>
      intro now k hfuel hprev
      rw [retryAdd]
      by_cases hs : succeeds k = true
      · left
        exact ⟨k, by rw [if_pos hs], hs, hprev⟩
      · have hsF : succeeds k = false := by simpa using hs
        have hpow : 0 < 2 ^ k := Nat.pos_pow_of_pos k (by omega)
        have hlt : ¬ now + 2 ^ k < deadline := by omega
        rw [if_neg hs, dif_neg hlt]
        right
        refine ⟨k, max now deadline, rfl, le_max_right _ _, ?_⟩
        intro j hj
        rcases Nat.lt_or_ge j k with h | h
        · exact hprev j h
        · have hjk : j = k := le_antisymm hj h
          subst hjk
          exact hsF
  | succ n ih =>
      intro now k hfuel hprev
      rw [retryAdd]
      by_cases hs : succeeds k = true
      · left
        exact ⟨k, by rw [if_pos hs], hs, hprev⟩
      · have hsF : succeeds k = false := by simpa using hs
        have hpow : 0 < 2 ^ k := Nat.pos_pow_of_pos k (by omega)
        by_cases hlt : now + 2 ^ k < deadline
        · rw [if_neg hs, dif_pos hlt]
          apply ih
          · omega
          · intro j hj
            rcases Nat.lt_succ_iff_lt_or_eq.mp hj with h | h
            · exact hprev j h
            · subst h
              exact hsF
        · rw [if_neg hs, dif_neg hlt]
          right
          refine ⟨k, max now deadline, rfl, le_max_right _ _, ?_⟩
          intro j hj
          rcases Nat.lt_or_ge j k with h | h
          · exact hprev j h
          · have hjk : j = k := le_antisymm hj h
            subst hjk
            exact hsF

/-- C9: for an empty target path `createWatcher` returns the silent
zero-value watcher, whose channels never produce an event.  For a
non-empty path the retry loop (exponential backoff of `2^k` seconds after
failed attempt `k`, starting at one second) terminates in exactly one of
two ways: it returns an attached watcher at the first registration
attempt that succeeds, or, when the deadline `startup + dirTimeout` cuts
the backoff short, it terminates fatally at a time that is never earlier
than that deadline, every attempt made so far having failed. -/
theorem claim_C9 (succeeds : Nat → Bool) (startup dirTimeout now : Nat)
    (filename : String) :
    (filename = "" →
      createWatcher succeeds startup dirTimeout now filename = .silent ∧
      producesEvents (createWatcher succeeds startup dirTimeout now filename)
        = false) ∧
    (filename ≠ "" →
      (∃ m, createWatcher succeeds startup dirTimeout now filename = .attached m ∧
        succeeds m = true ∧ ∀ j, j < m → succeeds j = false) ∨
      (∃ m t, createWatcher succeeds startup dirTimeout now filename = .fatal m t ∧
        startup + dirTimeout ≤ t ∧ ∀ j, j ≤ m → succeeds j = false)) := by
  constructor
  · intro h
    simp [createWatcher, h, producesEvents]
  · intro h
    unfold createWatcher
    rw [if_neg h]
    exact retryAdd_spec succeeds (startup + dirTimeout)
      (startup + dirTimeout - now) now 0 (le_refl _)
      (fun j hj => absurd hj (Nat.not_lt_zero j))

theorem claim_C9_witness :
    createWatcher (fun _ => true) 0 10 0 "" = .silent ∧
    ((∃ m, createWatcher (fun _ => true) 0 10 0 "x" = .attached m ∧
        (fun _ => true) m = true ∧ ∀ j, j < m → (fun _ => true) j = false) ∨
     (∃ m t, createWatcher (fun _ => true) 0 10 0 "x" = .fatal m t ∧
        0 + 10 ≤ t ∧ ∀ j, j ≤ m → (fun _ => true) j = false)) :=
  ⟨((claim_C9 (fun _ => true) 0 10 0 "").1 rfl).1,
   (claim_C9 (fun _ => true) 0 10 0 "x").2 (by decide)⟩

end FileageExporter
